import Mathlib

/-!
# A shallow embedding of godns (server.go)

This file embeds the request-handling core of the godns UDP DNS server in
Lean 4 and proves properties of it. The embedding follows `server.go`
function by function:

* `loadHosts` — normalization of the hosts-table keys (server.go:70-74);
* `handleRequest` — decode / lookup / forward / encode pipeline
  (server.go:98-156);
* `worker` — the reply-transmission wrapper (server.go:158-165);
* `mainLoopStep` — one iteration of the dispatcher read loop in `main`
  (server.go:208-237), including the transaction-id extraction
  `binary.BigEndian.Uint16(data[:2])`.

External collaborators are embedded as follows. The DNS wire-format codec
(`dns.Msg.Unpack` / `dns.Msg.Pack` of the miekg/dns library) is treated as
an oracle: `handleRequest` receives the decode outcome as an
`Option DnsMsg` (`none` models a decode error), and its result is the
structured reply message handed to the encoder; `SetReply` of the same
library is small and is translated faithfully as `setReply`. The Go
standard library's `net.ParseIP` (which since Go 1.17 delegates to
`netip.ParseAddr`) and `net.IP.To4` are translated faithfully as `parseIP`
and `to4`; `strings.ToLower` is modelled on ASCII letters, the only case
mapping DNS hostnames use. The upstream resolver exchange
(`upstreamDNS.Exchange`) is an oracle `DnsMsg → Option DnsMsg` (`none`
models a transport or timeout error). Wall-clock timestamps and the client
address only flow into log strings and are passed as opaque parameters.
-/

namespace Godns

/-! ## Strings: `strings.TrimSuffix`, `strings.ToLower` (ASCII) -/

/-- `strings.TrimSuffix(s, suffix)`: drop `suffix` from the end of `s`
when present, otherwise return `s` unchanged (at most one copy removed). -/
def goTrimSuffix (s suffix : String) : String :=
  if suffix.data.isSuffixOf s.data then
    String.mk (s.data.take (s.data.length - suffix.data.length))
  else s

/-- ASCII lower-casing of one character, the case mapping
`strings.ToLower` applies to hostnames. -/
def goCharLower (c : Char) : Char :=
  if 'A' ≤ c ∧ c ≤ 'Z' then Char.ofNat (c.toNat + 32) else c

/-- `strings.ToLower` restricted to ASCII letters. -/
def goToLower (s : String) : String :=
  String.mk (s.data.map goCharLower)

/-- The key normalization applied by `loadHosts`
(server.go:72): `strings.ToLower(strings.TrimSuffix(k, "."))`. -/
def loadHostsKeyNorm (k : String) : String :=
  goToLower (goTrimSuffix k ".")

/-- The hostname normalization applied by `handleRequest`
(server.go:107): `strings.ToLower(strings.TrimSuffix(q.Name, "."))`. -/
def queryHostNorm (n : String) : String :=
  goToLower (goTrimSuffix n ".")

/-! ## `net.ParseIP` and `net.IP.To4`

Translated from the Go standard library (`net/ip.go` and `net/netip`).
`net.ParseIP` calls `netip.ParseAddr`, rejects a nonempty zone, and
returns the 16-byte `As16` form (IPv4 addresses come back in their
4-in-6 mapped form `::ffff:a.b.c.d`). An IP address is a list of byte
values; `none` models the `nil` return. -/

/-- `netip.parseIPv4Fields`: dotted-decimal IPv4 parsing. Arguments:
remaining characters, current field value `pval`, digits seen in the
current field `digLen`, completed fields `pos`, completed field values.
Returns the four field values, or `none` on a parse error. -/
def parseV4Fields : List Char → Nat → Nat → Nat → List Nat → Option (List Nat)
  | [], pval, digLen, pos, fields =>
    if digLen = 0 then none          -- empty final field
    else if pos < 3 then none        -- IPv4 address too short
    else some (fields ++ [pval])
  | c :: rest, pval, digLen, pos, fields =>
    if '0' ≤ c ∧ c ≤ '9' then
      if digLen = 1 ∧ pval = 0 then none   -- field has octet with leading zero
      else
        let pval2 := pval * 10 + (c.toNat - '0'.toNat)
        if pval2 > 255 then none           -- field has value > 255
        else if digLen + 1 > 3 then none   -- field has too many digits
        else parseV4Fields rest pval2 (digLen + 1) pos fields
    else if c = '.' then
      if digLen = 0 then none              -- field must have at least one digit
      else if pos = 3 then none            -- address too long
      else parseV4Fields rest 0 0 (pos + 1) (fields ++ [pval])
    else none                              -- unexpected character

/-- `netip.parseIPv4`: parse a dotted-quad IPv4 address into its four
byte values. -/
def parseIPv4 (s : List Char) : Option (List Nat) :=
  parseV4Fields s 0 0 0 []

/-- Split an IPv6 literal at its first `%` into address part and zone,
`none` when no `%` occurs (`bytealg.IndexByteString(s, '%')`). -/
def splitZoneAt : List Char → Option (List Char × List Char)
  | [] => none
  | c :: rest =>
    if c = '%' then some ([], rest)
    else
      match splitZoneAt rest with
      | some (a, z) => some (c :: a, z)
      | none => none

/-- Is `c` a hexadecimal digit accepted by `netip.parseIPv6`? -/
def isV6HexDigit (c : Char) : Bool :=
  ('0' ≤ c && c ≤ '9') || ('a' ≤ c && c ≤ 'f') || ('A' ≤ c && c ≤ 'F')

/-- Value of a hexadecimal digit. -/
def v6HexVal (c : Char) : Nat :=
  if '0' ≤ c ∧ c ≤ '9' then c.toNat - '0'.toNat
  else if 'a' ≤ c ∧ c ≤ 'f' then c.toNat - 'a'.toNat + 10
  else c.toNat - 'A'.toNat + 10

/-- The inlined hex-number scan of `netip.parseIPv6`: consume leading hex
digits, accumulating `acc`; fail (`none`) when the accumulated value
exceeds `0xFFFF`. Returns the accumulated value, the number of digits
consumed, and the unconsumed characters. -/
def scanV6Hex : List Char → Nat → Nat → Option (Nat × Nat × List Char)
  | [], acc, off => some (acc, off, [])
  | c :: rest, acc, off =>
    if isV6HexDigit c then
      let acc2 := acc * 16 + v6HexVal c
      if acc2 > 65535 then none      -- IPv6 field has value >= 2^16
      else scanV6Hex rest acc2 (off + 1)
    else some (acc, off, c :: rest)

/-- The main loop of `netip.parseIPv6` (`for i < 16`): parse
colon-separated 16-bit groups, recording an ellipsis (`::`) position and
an optional embedded trailing IPv4 address. Returns the bytes parsed so
far, the next byte index `i`, the ellipsis position, and the unconsumed
characters; `none` is a parse error.

The loop runs at most 8 times (`i` starts at 0, grows by at least 2 per
iteration, and the loop stops once `i ≥ 16`), so recursing on a fuel of
8 is exact: fuel runs out only when `i ≥ 16`, where the loop exits with
the same result. -/
def v6Groups : Nat → List Char → Nat → Option Nat → List Nat →
    Option (List Nat × Nat × Option Nat × List Char)
  | 0, s, i, ellipsis, ip => some (ip, i, ellipsis, s)
  | Nat.succ fuel, s, i, ellipsis, ip =>
  if i < 16 then
    match scanV6Hex s 0 0 with
    | none => none
    | some (acc, off, rest) =>
      if off = 0 then none           -- each field must have at least one digit
      else
        match rest with
        | '.' :: _ =>
          -- embedded IPv4 must replace the final two 16-bit fields
          if ellipsis.isNone ∧ i ≠ 12 then none
          else if i + 4 > 16 then none
          else
            match parseIPv4 s with
            | none => none
            | some f4 => some (ip ++ f4, i + 4, ellipsis, [])
        | _ =>
          let ip2 := ip ++ [acc / 256, acc % 256]
          match rest with
          | [] => some (ip2, i + 2, ellipsis, [])
          | c :: rest2 =>
            if c ≠ ':' then none     -- unexpected character, want colon
            else
              match rest2 with
              | [] => none           -- colon must be followed by more characters
              | c2 :: rest3 =>
                if c2 = ':' then
                  if ellipsis.isSome then none   -- multiple :: in address
                  else
                    match rest3 with
                    | [] => some (ip2, i + 2, some (i + 2), [])
                    | _ :: _ => v6Groups fuel rest3 (i + 2) (some (i + 2)) ip2
                else v6Groups fuel rest2 (i + 2) ellipsis ip2
  else some (ip, i, ellipsis, s)

/-- The post-loop phase of `netip.parseIPv6`: reject unconsumed input,
expand the ellipsis when fewer than 16 bytes were parsed, and reject an
ellipsis that expands to zero groups. -/
def v6Finish : Option (List Nat × Nat × Option Nat × List Char) →
    Option (List Nat)
  | none => none
  | some (ip, i, ellipsis, srem) =>
    if srem ≠ [] then none           -- trailing garbage after address
    else if i < 16 then
      match ellipsis with
      | none => none                 -- address string too short
      | some e => some (ip.take e ++ List.replicate (16 - i) 0 ++ ip.drop e)
    else if ellipsis.isSome then none  -- :: must expand to at least one field
    else some ip

/-- `netip.parseIPv6`: returns the 16 address bytes and the zone
characters (empty when no zone was given). -/
def parseIPv6 (inp : List Char) : Option (List Nat × List Char) :=
  -- split off the zone right from the start
  let body : List Char → List Char → Option (List Nat × List Char) :=
    fun s zone =>
      match s with
      | ':' :: ':' :: rest =>
        if rest = [] then some (List.replicate 16 0, zone)   -- only ellipsis
        else (v6Finish (v6Groups 8 rest 0 (some 0) [])).map (fun ip => (ip, zone))
      | _ => (v6Finish (v6Groups 8 s 0 none [])).map (fun ip => (ip, zone))
  match splitZoneAt inp with
  | some (s, zone) =>
    if zone = [] then none           -- zone must be a non-empty string
    else body s zone
  | none => body inp []

/-- The 16-byte `As16` form of a four-byte IPv4 address:
`::ffff:a.b.c.d`. -/
def v4As16 (f4 : List Nat) : List Nat :=
  [0, 0, 0, 0, 0, 0, 0, 0, 0, 0, 255, 255] ++ f4

/-- `netip.ParseAddr`: dispatch on the first of `.`, `:`, `%` found in
the string. Returns 16 address bytes and the zone characters. -/
def parseAddr (s : List Char) : Option (List Nat × List Char) :=
  match s.find? (fun c => c = '.' || c = ':' || c = '%') with
  | some c =>
    if c = '.' then (parseIPv4 s).map (fun f4 => (v4As16 f4, []))
    else if c = ':' then parseIPv6 s
    else none                        -- '%' first: missing IPv6 address
  | none => none                     -- unable to parse IP

/-- `net.ParseIP`: `netip.ParseAddr`, rejecting any zone; the result is
the 16-byte `As16` form. `none` models the `nil` IP. -/
def parseIP (s : String) : Option (List Nat) :=
  match parseAddr s.data with
  | some (b16, zone) => if zone = [] then some b16 else none
  | none => none

/-- `net.IP.To4`: a 4-byte address is returned as is; a 16-byte
4-in-6 mapped address is shortened to its final 4 bytes; anything else
gives `nil` (`none`). -/
def to4 (ip : List Nat) : Option (List Nat) :=
  if ip.length = 4 then some ip
  else if ip.length = 16 ∧ (ip.take 10).all (fun b => b = 0) ∧
      ip.getD 10 0 = 255 ∧ ip.getD 11 0 = 255 then
    some (ip.drop 12)
  else none

/-! ## DNS messages (the slice of `dns.Msg` the core touches) -/

/-- One entry of a DNS question section: name, query type, query class. -/
structure DnsQuestion where
  name : String
  qtype : Nat
  qclass : Nat
deriving Repr, DecidableEq

/-- A resource record as the core builds and inspects it: header fields
plus the A-record rdata (`[]` models a `nil` address slice). Records
received from upstream are carried through opaquely in the same form. -/
structure DnsRR where
  name : String
  rrtype : Nat
  rclass : Nat
  ttl : Nat
  rdataA : List Nat
deriving Repr, DecidableEq

/-- The slice of `dns.Msg` the core reads or writes: header id, flags,
response code, question section, answer section. -/
structure DnsMsg where
  id : Nat
  response : Bool
  opcode : Nat
  authoritative : Bool
  recursionDesired : Bool
  checkingDisabled : Bool
  rcode : Nat
  question : List DnsQuestion
  answer : List DnsRR
deriving Repr, DecidableEq

/-- `new(dns.Msg)`: the zero message. -/
def emptyMsg : DnsMsg :=
  { id := 0, response := false, opcode := 0, authoritative := false,
    recursionDesired := false, checkingDisabled := false, rcode := 0,
    question := [], answer := [] }

def typeA : Nat := 1
def typeAAAA : Nat := 28
def classINET : Nat := 1
def opcodeQuery : Nat := 0
def rcodeSuccess : Nat := 0
def rcodeServerFailure : Nat := 2

/-- `dns.Msg.SetReply` (miekg/dns `msg.go`) applied to a fresh message:
copy id and opcode, set the response flag, copy the rd/cd bits for query
opcode, set `RcodeSuccess`, and copy the first question entry when one
exists. -/
def setReply (request : DnsMsg) : DnsMsg :=
  let m := { emptyMsg with
    id := request.id
    response := true
    opcode := request.opcode }
  let m := if m.opcode = opcodeQuery then
      { m with recursionDesired := request.recursionDesired,
               checkingDisabled := request.checkingDisabled }
    else m
  let m := { m with rcode := rcodeSuccess }
  match request.question with
  | q :: _ => { m with question := [q] }
  | [] => m

/-! ## `handleRequest` (server.go:98-156) -/

/-- The log line `logRequest` pushes (timestamp and client address are
the only inputs that vary; the decoded dump is opaque). -/
def logRequestLine (now addr : String) : String :=
  "[" ++ now ++ "] (" ++ addr ++ ") REQUEST"

/-- The log line `logResponse` pushes. -/
def logResponseLine (now addr : String) : String :=
  "[" ++ now ++ "] (" ++ addr ++ ") RESPONSE"

/-- The minimal forwarding query `handleRequest` builds on a table miss
(server.go:133-138): dispatcher id, recursion desired, and a single
question with the original name but type `A` and class `INET`. -/
def fallbackQuery (id : Nat) (name : String) : DnsMsg :=
  { emptyMsg with
    id := id
    recursionDesired := true
    question := [{ name := name, qtype := typeA, qclass := classINET }] }

/-- What one `handleRequest` run produced: the reply message handed to
the wire encoder (`none` = request dropped before encoding), the
forwarding queries issued to the upstream resolver, and the log lines
pushed onto the log channel. -/
structure HandleResult where
  response : Option DnsMsg
  upstreamQueries : List DnsMsg
  logs : List String
deriving Repr, DecidableEq

/-- `handleRequest(data, records, addr, id)` (server.go:98-156).

`decoded` is the outcome of `dnsMsg.Unpack(data)` by the external codec
(`none` = decode error); `records` is the hosts table as an association
list (one binding per key, like a Go map); `addr` and `now` are the
client address and the wall-clock timestamp, which only reach log lines;
`id` is the dispatcher-extracted transaction id; `upstream` is the
`upstreamDNS.Exchange` oracle (`none` = transport or timeout error).
The final `response.Pack()` belongs to the external codec; the result
carries the structured message handed to it. -/
def handleRequest (decoded : Option DnsMsg) (records : List (String × String))
    (addr now : String) (id : Nat) (upstream : DnsMsg → Option DnsMsg) :
    HandleResult :=
  let reqLog := logRequestLine now addr
  match decoded with
  | none => { response := none, upstreamQueries := [], logs := [reqLog] }
  | some dnsMsg =>
    match dnsMsg.question with
    | [] => { response := none, upstreamQueries := [], logs := [reqLog] }
    | q :: _ =>
      let host := queryHostNorm q.name
      let response := { setReply dnsMsg with authoritative := true, id := id }
      match List.lookup host records with
      | some ip =>
        match parseIP ip with
        | none =>
          { response := some { response with rcode := rcodeServerFailure }
            upstreamQueries := []
            logs := [reqLog, "Invalid IP in hosts file: " ++ ip,
                     logResponseLine now addr] }
        | some parsedIP =>
          let rr : DnsRR :=
            { name := q.name, rrtype := typeA, rclass := classINET,
              ttl := 1, rdataA := (to4 parsedIP).getD [] }
          { response := some { response with answer := response.answer ++ [rr] }
            upstreamQueries := []
            logs := [reqLog, logResponseLine now addr] }
      | none =>
        let fallbackMsg := fallbackQuery id q.name
        match upstream fallbackMsg with
        | none =>
          { response := some { response with rcode := rcodeServerFailure }
            upstreamQueries := [fallbackMsg]
            logs := [reqLog, "Error querying upstream resolver",
                     logResponseLine now addr] }
        | some result =>
          { response := some result
            upstreamQueries := [fallbackMsg]
            logs := [reqLog, logResponseLine now addr] }

/-- `worker` (server.go:158-165): run `handleRequest` and, when it
produced a reply, send that one datagram back to the source address.
The result lists the datagrams written to the socket. -/
def worker (decoded : Option DnsMsg) (records : List (String × String))
    (addr now : String) (id : Nat) (upstream : DnsMsg → Option DnsMsg) :
    List (String × DnsMsg) :=
  match (handleRequest decoded records addr now id upstream).response with
  | some response => [(addr, response)]
  | none => []

/-! ## `loadHosts` (server.go:54-75) -/

/-- Go map assignment `records[key] = v`: replace an existing binding or
append a fresh one. -/
def mapInsert (m : List (String × String)) (k v : String) :
    List (String × String) :=
  match m with
  | [] => [(k, v)]
  | (k2, v2) :: rest =>
    if k2 = k then (k, v) :: rest else (k2, v2) :: mapInsert rest k v

/-- The normalization loop of `loadHosts` (server.go:70-74): rebuild the
raw decoded JSON map with each key lower-cased and stripped of one
trailing dot. The raw map is given as an association list. -/
def loadHosts (raw : List (String × String)) : List (String × String) :=
  raw.foldl (fun records kv => mapInsert records (loadHostsKeyNorm kv.1) kv.2) []

/-! ## The dispatcher loop of `main` (server.go:208-237) -/

/-- What `serverConn.ReadFromUDP` returned in one iteration: a datagram
payload, or an error together with whether `ctx.Err()` was non-nil at
that moment (the context is cancelled by the shutdown goroutine). -/
inductive ReadResult where
  | ok (payload : List Nat)
  | err (ctxCanceled : Bool)
deriving Repr, DecidableEq

/-- How one iteration of the dispatcher loop ended: the loop exited the
process (recording whether it ran `wg.Wait()` first), continued
(recording the transaction id of a spawned worker, if any), or panicked. -/
inductive StepOutcome where
  | exited (waitedForWorkers : Bool)
  | continued (spawnedWorkerId : Option Nat)
  | panicked
deriving Repr, DecidableEq

/-- The dispatcher's transaction-id extraction
`binary.BigEndian.Uint16(data[:2])` (server.go:229). Slicing `data[:2]`
panics when the copied payload holds fewer than 2 bytes; the panic is
modelled as `none`. -/
def extractTransactionId (data : List Nat) : Option Nat :=
  match data with
  | b0 :: b1 :: _ => some (b0 * 256 + b1)
  | _ => none

/-- One iteration of the `for`/`select` loop in `main`
(server.go:208-237). `ctxDoneAtSelect` is whether the `select` saw the
context already cancelled (that branch runs `wg.Wait()` and returns).
Otherwise the `default` branch reads from the socket: on an error with
`ctx.Err() != nil` it returns at once — without `wg.Wait()`; on any
other error it logs and continues; on success it copies the payload,
extracts the transaction id (panicking on a short datagram) and spawns a
worker. -/
def mainLoopStep (ctxDoneAtSelect : Bool) (read : ReadResult) : StepOutcome :=
  if ctxDoneAtSelect then .exited true
  else
    match read with
    | .err ctxCanceled =>
      if ctxCanceled then .exited false
      else .continued none
    | .ok payload =>
      match extractTransactionId payload with
      | some tid => .continued (some tid)
      | none => .panicked
/-! ## Concrete inputs used by the witnesses and counterexamples -/

/-- A single-question query message: name, query type, query class, and
the id embedded in the request. -/
def exQuery (name : String) (qtype qclass reqId : Nat) : DnsMsg :=
  { emptyMsg with
    id := reqId
    question := [{ name := name, qtype := qtype, qclass := qclass }] }

/-- A fixed 300-second A record for `google.com`, standing in for an
upstream answer. -/
def exUpstreamRR : DnsRR :=
  { name := "google.com.", rrtype := typeA, rclass := classINET, ttl := 300, rdataA := [142, 250, 64, 78] }

/-- An upstream oracle that echoes the forwarded query with the response
flag set and one fixed answer. -/
def exUpstream (m : DnsMsg) : Option DnsMsg :=
  some { m with response := true, answer := [exUpstreamRR] }

/-! ## Helper lemmas about the reply shell -/

/-- `SetReply` never puts answers into the fresh reply shell. -/
theorem setReply_answer (m : DnsMsg) : (setReply m).answer = [] := by
  unfold setReply emptyMsg
  cases m.question <;> simp [apply_ite DnsMsg.answer]

/-- `SetReply` sets the response code to `RcodeSuccess`. -/
theorem setReply_rcode (m : DnsMsg) : (setReply m).rcode = rcodeSuccess := by
  unfold setReply emptyMsg
  cases m.question <;> simp [apply_ite DnsMsg.rcode]

/-- No run of `handleRequest` issues more than one upstream exchange. -/
theorem handleRequest_upstream_le_one (d : Option DnsMsg)
    (r : List (String × String)) (a n : String) (i : Nat)
    (u : DnsMsg → Option DnsMsg) :
    (handleRequest d r a n i u).upstreamQueries.length ≤ 1 := by
  simp only [handleRequest]
  repeat' split
  all_goals simp

/-! ## The claims -/

/-- Claim C1: for every hostname H in the table whose configured value V
parses as an IPv4 address, handling a query whose question name
normalizes to H — any letter case, with or without one trailing dot,
and regardless of the query type — produces a reply with exactly one
answer record: an A record whose address is V with TTL 1, response code
NOERROR, the authoritative flag set, and the dispatcher-extracted
transaction id. -/
theorem hit_builds_single_a_record (msg : DnsMsg) (q : DnsQuestion)
    (rest : List DnsQuestion) (records : List (String × String)) (V : String)
    (ip16 b4 : List Nat) (addr now : String) (id : Nat)
    (upstream : DnsMsg → Option DnsMsg)
    (hq : msg.question = q :: rest)
    (hfound : List.lookup (queryHostNorm q.name) records = some V)
    (hparse : parseIP V = some ip16) (h4 : to4 ip16 = some b4) :
    ∃ resp,
      (handleRequest (some msg) records addr now id upstream).response = some resp ∧
      resp.answer = [{ name := q.name, rrtype := typeA, rclass := classINET, ttl := 1, rdataA := b4 }] ∧
      resp.rcode = rcodeSuccess ∧ resp.authoritative = true ∧ resp.id = id := by
  simp only [handleRequest, hq, hfound, hparse]
  exact ⟨_, rfl, by simp [setReply_answer, h4], by simp [setReply_rcode], rfl, rfl⟩

/-- Witness for C1: the table maps `app1.mydomain.com` to `1.2.3.4` and
the query asks for `App1.MyDomain.com.` with query type AAAA. -/
theorem hit_builds_single_a_record_witness :
    ∃ resp,
      (handleRequest (some (exQuery "App1.MyDomain.com." typeAAAA classINET 77))
        [("app1.mydomain.com", "1.2.3.4")] "203.0.113.9:5353"
        "2024-05-01T00:00:00.000Z" 7 (fun _ => none)).response = some resp ∧
      resp.answer = [{ name := "App1.MyDomain.com.", rrtype := typeA, rclass := classINET, ttl := 1, rdataA := [1, 2, 3, 4] }] ∧
      resp.rcode = rcodeSuccess ∧ resp.authoritative = true ∧ resp.id = 7 :=
  hit_builds_single_a_record _
    { name := "App1.MyDomain.com.", qtype := typeAAAA, qclass := classINET } []
    [("app1.mydomain.com", "1.2.3.4")] "1.2.3.4"
    [0, 0, 0, 0, 0, 0, 0, 0, 0, 0, 255, 255, 1, 2, 3, 4] [1, 2, 3, 4]
    "203.0.113.9:5353" "2024-05-01T00:00:00.000Z" 7 (fun _ => none)
    rfl (by decide) (by decide) (by decide)

/-- Claim C2 is refuted by the code: a datagram whose payload holds
fewer than two bytes reaches `binary.BigEndian.Uint16(data[:2])` with
`len(data) < 2`, and the slice expression panics in the dispatcher
goroutine, crashing the process. The extraction is modelled as `none`
on short payloads, and the loop iteration ends in the panic outcome
instead of spawning a worker. -/
theorem short_datagram_crashes_dispatcher :
    mainLoopStep false (ReadResult.ok [0]) = StepOutcome.panicked ∧
    mainLoopStep false (ReadResult.ok []) = StepOutcome.panicked ∧
    extractTransactionId [0] = none ∧ extractTransactionId [] = none := by
  decide

/-- Claim C3 is refuted by the code: when the termination signal closes
the socket while the dispatcher is blocked in `ReadFromUDP`, the read
fails with `ctx.Err() != nil` and `main` returns from the read-error
branch immediately — without `wg.Wait()` — abandoning every in-flight
worker. Only the `select` branch that observes the cancelled context
before the next read runs `wg.Wait()`. -/
theorem shutdown_read_error_skips_wait :
    mainLoopStep false (ReadResult.err true) = StepOutcome.exited false ∧
    mainLoopStep true (ReadResult.err true) = StepOutcome.exited true := by
  decide

/-- Counterexample to claim C4: the IPv6 literal `::1` is not an IPv4
address, yet `net.ParseIP` accepts it, so the hit branch synthesizes an
A record whose `To4()` address is nil: the reply is NOERROR with one
empty-address answer, not SERVFAIL with no answers. -/
theorem ipv6_literal_value_yields_noerror_answer :
    (handleRequest (some (exQuery "h6.test" typeA classINET 3))
        [("h6.test", "::1")] "198.51.100.2:4242" "2024-05-01T00:00:00.000Z" 9
        (fun _ => none)).response =
      some ⟨9, true, 0, true, false, false, rcodeSuccess,
            [⟨"h6.test", typeA, classINET⟩], [⟨"h6.test", typeA, classINET, 1, []⟩]⟩ ∧
    rcodeSuccess ≠ rcodeServerFailure := by
  decide

/-- Claim C4 as amended: a configured value that `net.ParseIP` rejects
entirely (not an IP address of any family) yields a SERVFAIL reply with
no answer records; an IPv6 literal instead parses and produces a NOERROR
reply with one empty-address A record. -/
theorem unparseable_value_yields_servfail (msg : DnsMsg) (q : DnsQuestion)
    (rest : List DnsQuestion) (records : List (String × String)) (V : String)
    (addr now : String) (id : Nat) (upstream : DnsMsg → Option DnsMsg)
    (hq : msg.question = q :: rest)
    (hfound : List.lookup (queryHostNorm q.name) records = some V)
    (hbad : parseIP V = none) :
    ∃ resp,
      (handleRequest (some msg) records addr now id upstream).response = some resp ∧
      resp.rcode = rcodeServerFailure ∧ resp.answer = [] := by
  simp only [handleRequest, hq, hfound, hbad]
  exact ⟨_, rfl, rfl, by simp [setReply_answer]⟩

/-- Witness for the amended C4: scenario 3 of the spec, table entry
`bad.host ↦ not-an-ip`. -/
theorem unparseable_value_yields_servfail_witness :
    ∃ resp,
      (handleRequest (some (exQuery "bad.host." typeA classINET 11))
        [("bad.host", "not-an-ip")] "192.0.2.1:9999" "2024-05-01T00:00:00.000Z"
        13 (fun _ => none)).response = some resp ∧
      resp.rcode = rcodeServerFailure ∧ resp.answer = [] :=
  unparseable_value_yields_servfail _
    { name := "bad.host.", qtype := typeA, qclass := classINET } []
    [("bad.host", "not-an-ip")] "not-an-ip" "192.0.2.1:9999"
    "2024-05-01T00:00:00.000Z" 13 (fun _ => none)
    rfl (by decide) (by decide)

/-- Counterexample to claim C5: the forwarded query does not preserve
the original question's type and class. A question of type AAAA (28)
and class 3 is forwarded upstream with type A (1) and class INET (1). -/
theorem forwarded_query_forces_type_a :
    (handleRequest (some (exQuery "x.example." typeAAAA 3 5)) []
        "192.0.2.7:1053" "2024-05-01T00:00:00.000Z" 5
        (fun _ => none)).upstreamQueries =
      [fallbackQuery 5 "x.example."] ∧
    (fallbackQuery 5 "x.example.").question = [⟨"x.example.", typeA, classINET⟩] ∧
    typeA ≠ typeAAAA ∧ classINET ≠ 3 := by
  decide

/-- Claim C5 as amended: on a table miss the worker forwards a minimal
query that preserves the original question's name but forces type A,
class INET, recursion desired, and the dispatcher id; when that single
upstream exchange succeeds, the upstream's full reply — answers, flags
and response code as received — entirely replaces the locally built
reply shell. -/
theorem miss_upstream_reply_replaces_shell (msg : DnsMsg) (q : DnsQuestion)
    (rest : List DnsQuestion) (records : List (String × String))
    (addr now : String) (id : Nat) (upstream : DnsMsg → Option DnsMsg)
    (result : DnsMsg)
    (hq : msg.question = q :: rest)
    (hmiss : List.lookup (queryHostNorm q.name) records = none)
    (hup : upstream (fallbackQuery id q.name) = some result) :
    (handleRequest (some msg) records addr now id upstream).response =
      some result ∧
    (handleRequest (some msg) records addr now id upstream).upstreamQueries =
      [fallbackQuery id q.name] := by
  refine ⟨?_, ?_⟩ <;> simp [handleRequest, hq, hmiss, hup]

/-- Witness for the amended C5: an empty table forwards a query for
`google.com.` and the upstream's reply comes back verbatim. -/
theorem miss_upstream_reply_replaces_shell_witness :
    (handleRequest (some (exQuery "google.com." typeA classINET 21)) []
        "198.51.100.9:35353" "2024-05-01T00:00:00.000Z" 22 exUpstream).response =
      some { fallbackQuery 22 "google.com." with response := true, answer := [exUpstreamRR] } ∧
    (handleRequest (some (exQuery "google.com." typeA classINET 21)) []
        "198.51.100.9:35353" "2024-05-01T00:00:00.000Z" 22 exUpstream).upstreamQueries =
      [fallbackQuery 22 "google.com."] :=
  miss_upstream_reply_replaces_shell _
    { name := "google.com.", qtype := typeA, qclass := classINET } [] []
    "198.51.100.9:35353" "2024-05-01T00:00:00.000Z" 22 exUpstream
    { fallbackQuery 22 "google.com." with response := true, answer := [exUpstreamRR] }
    rfl (by decide) (by decide)

/-- Claim C6: a payload that fails DNS decoding, or that decodes to a
message with no question section, is dropped silently — `handleRequest`
produces no reply and the worker writes nothing to the socket. -/
theorem decode_failure_or_empty_question_drops (decoded : Option DnsMsg)
    (records : List (String × String)) (addr now : String) (id : Nat)
    (upstream : DnsMsg → Option DnsMsg)
    (h : decoded = none ∨ ∃ m, decoded = some m ∧ m.question = []) :
    (handleRequest decoded records addr now id upstream).response = none ∧
    worker decoded records addr now id upstream = [] := by
  rcases h with h | ⟨m, hm, hqe⟩
  · subst h; exact ⟨rfl, rfl⟩
  · subst hm
    refine ⟨?_, ?_⟩ <;> simp only [worker, handleRequest, hqe]

/-- Witness for C6: an undecodable payload produces no reply and no
transmitted datagram. -/
theorem decode_failure_or_empty_question_drops_witness :
    (handleRequest none [("a.b", "1.2.3.4")] "192.0.2.3:1234"
      "2024-05-01T00:00:00.000Z" 4 (fun _ => none)).response = none ∧
    worker none [("a.b", "1.2.3.4")] "192.0.2.3:1234"
      "2024-05-01T00:00:00.000Z" 4 (fun _ => none) = [] :=
  decode_failure_or_empty_question_drops none [("a.b", "1.2.3.4")]
    "192.0.2.3:1234" "2024-05-01T00:00:00.000Z" 4 (fun _ => none) (Or.inl rfl)

/-- Claim C7: on a table miss whose single upstream exchange fails, the
reply is SERVFAIL with no answer records; exactly one forwarding query
was issued for it, and no run of `handleRequest` ever makes more than
one upstream attempt. -/
theorem upstream_error_yields_servfail_single_attempt (msg : DnsMsg)
    (q : DnsQuestion) (rest : List DnsQuestion)
    (records : List (String × String)) (addr now : String) (id : Nat)
    (upstream : DnsMsg → Option DnsMsg)
    (hq : msg.question = q :: rest)
    (hmiss : List.lookup (queryHostNorm q.name) records = none)
    (hup : upstream (fallbackQuery id q.name) = none) :
    (∃ resp,
      (handleRequest (some msg) records addr now id upstream).response = some resp ∧
      resp.rcode = rcodeServerFailure ∧ resp.answer = []) ∧
    (handleRequest (some msg) records addr now id upstream).upstreamQueries =
      [fallbackQuery id q.name] ∧
    ∀ (d : Option DnsMsg) (r : List (String × String)) (a n : String) (i : Nat)
      (u : DnsMsg → Option DnsMsg),
      (handleRequest d r a n i u).upstreamQueries.length ≤ 1 := by
  refine ⟨?_, ?_, fun d r a n i u => handleRequest_upstream_le_one d r a n i u⟩
  · simp only [handleRequest, hq, hmiss, hup]
    exact ⟨_, rfl, rfl, by simp [setReply_answer]⟩
  · simp only [handleRequest, hq, hmiss, hup]

/-- Witness for C7: scenario 4 of the spec — unknown host, upstream
unreachable. -/
theorem upstream_error_yields_servfail_single_attempt_witness :
    (∃ resp,
      (handleRequest (some (exQuery "unknown.example." typeA classINET 31))
        [("known.example", "9.9.9.9")] "203.0.113.4:40000"
        "2024-05-01T00:00:00.000Z" 32 (fun _ => none)).response = some resp ∧
      resp.rcode = rcodeServerFailure ∧ resp.answer = []) ∧
    (handleRequest (some (exQuery "unknown.example." typeA classINET 31))
      [("known.example", "9.9.9.9")] "203.0.113.4:40000"
      "2024-05-01T00:00:00.000Z" 32 (fun _ => none)).upstreamQueries =
      [fallbackQuery 32 "unknown.example."] ∧
    ∀ (d : Option DnsMsg) (r : List (String × String)) (a n : String) (i : Nat)
      (u : DnsMsg → Option DnsMsg),
      (handleRequest d r a n i u).upstreamQueries.length ≤ 1 :=
  upstream_error_yields_servfail_single_attempt _
    { name := "unknown.example.", qtype := typeA, qclass := classINET } []
    [("known.example", "9.9.9.9")] "203.0.113.4:40000"
    "2024-05-01T00:00:00.000Z" 32 (fun _ => none)
    rfl (by decide) (by decide)

/-- Claim C8: the key normalization of `loadHosts` and the hostname
normalization of `handleRequest` are the same function — lowercase and
strip exactly one trailing dot — and two queries whose question names
normalize alike resolve identically against the same table: the same
response code, flags, id, and the same answer data (type, class, TTL,
address). -/
theorem normalization_same_at_load_and_query (msg : DnsMsg) (q : DnsQuestion)
    (rest : List DnsQuestion) (n2 : String)
    (records : List (String × String)) (V : String) (addr now : String)
    (id : Nat) (upstream : DnsMsg → Option DnsMsg)
    (hq : msg.question = q :: rest)
    (hnorm : queryHostNorm q.name = queryHostNorm n2)
    (hhit : List.lookup (queryHostNorm q.name) records = some V) :
    (∀ s, loadHostsKeyNorm s = queryHostNorm s) ∧
    ((handleRequest (some msg) records addr now id upstream).response.map
        (fun m => (m.rcode, m.authoritative, m.id,
          m.answer.map (fun rr => (rr.rrtype, rr.rclass, rr.ttl, rr.rdataA)))) =
      (handleRequest (some { msg with question := { q with name := n2 } :: rest })
          records addr now id upstream).response.map
        (fun m => (m.rcode, m.authoritative, m.id,
          m.answer.map (fun rr => (rr.rrtype, rr.rclass, rr.ttl, rr.rdataA))))) := by
  refine ⟨fun s => rfl, ?_⟩
  have hhit2 : List.lookup (queryHostNorm n2) records = some V := hnorm ▸ hhit
  simp only [handleRequest, hq, hhit, hhit2]
  cases parseIP V <;> simp [setReply_answer, setReply_rcode]

/-- Witness for C8: `App1.MyDomain.com.` and `app1.mydomain.com`
resolve identically against the table `app1.mydomain.com ↦ 1.2.3.4`. -/
theorem normalization_same_at_load_and_query_witness :
    (∀ s, loadHostsKeyNorm s = queryHostNorm s) ∧
    ((handleRequest (some (exQuery "App1.MyDomain.com." typeA classINET 41))
        [("app1.mydomain.com", "1.2.3.4")] "192.0.2.50:53053"
        "2024-05-01T00:00:00.000Z" 42 (fun _ => none)).response.map
        (fun m => (m.rcode, m.authoritative, m.id,
          m.answer.map (fun rr => (rr.rrtype, rr.rclass, rr.ttl, rr.rdataA)))) =
      (handleRequest (some { exQuery "App1.MyDomain.com." typeA classINET 41 with question := { name := "app1.mydomain.com", qtype := typeA, qclass := classINET } :: ([] : List DnsQuestion) })
        [("app1.mydomain.com", "1.2.3.4")] "192.0.2.50:53053"
        "2024-05-01T00:00:00.000Z" 42 (fun _ => none)).response.map
        (fun m => (m.rcode, m.authoritative, m.id,
          m.answer.map (fun rr => (rr.rrtype, rr.rclass, rr.ttl, rr.rdataA))))) :=
  normalization_same_at_load_and_query
    (exQuery "App1.MyDomain.com." typeA classINET 41)
    { name := "App1.MyDomain.com.", qtype := typeA, qclass := classINET } []
    "app1.mydomain.com" [("app1.mydomain.com", "1.2.3.4")] "1.2.3.4"
    "192.0.2.50:53053" "2024-05-01T00:00:00.000Z" 42 (fun _ => none)
    rfl (by decide) (by decide)

/-- Claim C9: the reply is a deterministic function of the decoded
payload, the table, the transaction id and the upstream reply — the
client address and the wall-clock timestamp (which reach only the log
lines) never influence the reply or the forwarded queries. -/
theorem reply_deterministic_in_inputs (decoded : Option DnsMsg)
    (records : List (String × String)) (id : Nat)
    (upstream : DnsMsg → Option DnsMsg) (addr1 now1 addr2 now2 : String) :
    (handleRequest decoded records addr1 now1 id upstream).response =
      (handleRequest decoded records addr2 now2 id upstream).response ∧
    (handleRequest decoded records addr1 now1 id upstream).upstreamQueries =
      (handleRequest decoded records addr2 now2 id upstream).upstreamQueries := by
  simp only [handleRequest]
  constructor <;> (repeat' split) <;> rfl

/-- Claim C10: the whole outcome of `handleRequest` — reply, forwarded
queries and log lines — depends only on the first question entry; the
question entries after the first never influence it. -/
theorem extra_questions_ignored (msg : DnsMsg) (q : DnsQuestion)
    (r1 r2 : List DnsQuestion) (records : List (String × String))
    (addr now : String) (id : Nat) (upstream : DnsMsg → Option DnsMsg) :
    handleRequest (some { msg with question := q :: r1 }) records addr now id
        upstream =
      handleRequest (some { msg with question := q :: r2 }) records addr now id
        upstream := by
  rfl

end Godns
